import Mathlib

/-!
Shallow embedding of the multi-stage call-center simulation in src/main.py.

Real-valued quantities of the program (simulated times, probabilities,
utilization ratios) are modelled as rationals.  The stochastic draws
(uniform variates for routing, exponential variates for service times and
inter-arrival gaps) and the outcome of the capacity-vs-timeout race are
modelled as explicit inputs: a run of the program corresponds to a choice
of these inputs.  Python integers are embedded as Nat where the program
only increments them and as Int where the program may subtract.
-/

/-- Per-station configuration, from the `parameters` dict (src/main.py lines
18-24): `mu` is the mean service time, `servers` the station capacity. -/
structure StationParams where
  mu : ℚ
  servers : ℕ
deriving DecidableEq

/-- The `parameters` dict of src/main.py lines 18-24, as a total map; names
outside the five configured stations are never looked up by the program. -/
def parameters : String → StationParams
  | "CRS" => ⟨1/2, 10⟩
  | "AI/Robotics" => ⟨2, 5⟩
  | "TSD" => ⟨5, 5⟩
  | "PGT" => ⟨7, 5⟩
  | "CSD" => ⟨5, 15⟩
  | _ => ⟨0, 0⟩

/-- The `transition_probabilities` dict of src/main.py lines 27-33. -/
def transition_probabilities : String → List (String × ℚ)
  | "CRS" => [("TSD", 1/10), ("AI/Robotics", 3/10), ("PGT", 1/10), ("CSD", 1/2)]
  | "TSD" => [("CSD", 1/5), ("Completed Support", 4/5)]
  | "PGT" => [("CSD", 1/5), ("Completed Support", 4/5)]
  | "AI/Robotics" => [("CSD", 3/10), ("TSD", 1/10), ("PGT", 1/10), ("Completed Support", 1/2)]
  | "CSD" => [("PGT", 1/10), ("TSD", 1/10), ("Completed Support", 4/5)]
  | _ => []

/-- `TOTAL_CUSTOMERS`: src/main.py line 15 assigns 14400 and line 16
immediately reassigns 30000, so the value used by the program is 30000. -/
def TOTAL_CUSTOMERS : ℕ := 30000

/-- The per-station statistics collector `NodeStats` (src/main.py lines
36-61): sample lists plus an abandonment counter. -/
structure NodeStats where
  waiting_times : List ℚ
  service_times : List ℚ
  queue_lengths : List ℕ
  utilization : List ℚ
  abandonment_count : ℕ
deriving DecidableEq

/-- `NodeStats.__init__` (src/main.py lines 37-42): all lists empty, counter 0. -/
def initNodeStats : NodeStats := ⟨[], [], [], [], 0⟩

/-- `NodeStats.customer_abandoned` (src/main.py lines 44-45). -/
def NodeStats.customer_abandoned (st : NodeStats) : NodeStats :=
  { st with abandonment_count := st.abandonment_count + 1 }

/-- `NodeStats.add_stats(wait, service, count, servers)` (src/main.py lines
47-51).  The Python method receives the simpy resource as `count` and reads
`len(count.queue)` and `count.count` from it; the embedding receives those
two snapshots directly as `qlen` and `occ`. -/
def NodeStats.add_stats (st : NodeStats) (wait service : ℚ) (qlen occ servers : ℕ) : NodeStats :=
  { st with
      waiting_times := st.waiting_times ++ [wait]
      service_times := st.service_times ++ [service]
      queue_lengths := st.queue_lengths ++ [qlen]
      utilization := st.utilization ++ [(occ : ℚ) / (servers : ℚ)] }

/-- The record returned by `NodeStats.compute_metrics`. -/
structure Metrics where
  average_waiting_time : ℚ
  average_service_time : ℚ
  average_queue_length : ℚ
  average_utilization : ℚ
  abandonment_rate : ℚ
deriving DecidableEq

/-- `NodeStats.compute_metrics` (src/main.py lines 53-61): each mean is
`statistics.mean(xs) if xs else 0`, and the rate divides the abandonment
counter by `len(waiting_times) + abandonment_count` (0 if that is 0). -/
def NodeStats.compute_metrics (st : NodeStats) : Metrics :=
  let total_customers := st.waiting_times.length + st.abandonment_count
  { average_waiting_time :=
      if st.waiting_times = [] then 0 else st.waiting_times.sum / (st.waiting_times.length : ℚ)
    average_service_time :=
      if st.service_times = [] then 0 else st.service_times.sum / (st.service_times.length : ℚ)
    average_queue_length :=
      if st.queue_lengths = [] then 0 else (st.queue_lengths.sum : ℚ) / (st.queue_lengths.length : ℚ)
    average_utilization :=
      if st.utilization = [] then 0 else st.utilization.sum / (st.utilization.length : ℚ)
    abandonment_rate :=
      if total_customers = 0 then 0 else (st.abandonment_count : ℚ) / (total_customers : ℚ) }

/-- The global statistics collector `GeneStats` (src/main.py lines 64-78).
`transfer_count` is a Python int and the program adds `len(pathway) - 2` to
it, which can be negative, so it is embedded as an integer. -/
structure GeneStats where
  first_call_resolution_count : ℕ
  transfer_count : ℤ
deriving DecidableEq

/-- The map from station name to its `NodeStats` collector (src/main.py line
134 builds it freshly initialized). -/
def StatsMap := String → NodeStats

/-- Initial `node_stats` map (src/main.py line 134): every station starts
with a fresh `NodeStats`. -/
def node_stats : StatsMap := fun _ => initNodeStats

/-- Pointwise update of one station's collector, as mutation of the
`node_stats` dict entry does in Python. -/
def updateStats (sm : StatsMap) (node : String) (f : NodeStats → NodeStats) : StatsMap :=
  fun m => if m = node then f (sm m) else sm m

/-- The observations one iteration of the `customer` loop (src/main.py lines
82-97) reads from the simulation environment during a single station visit:
`granted` is whether the capacity request won the race against
`env.timeout(0.5)` (the test `request not in result` being false), `wait`
is `env.now - arrival_time` at the recording point, `service` is the
`random.expovariate(1.0 / mu)` draw (only read when granted), and `qlen`,
`occ` are `len(resource.queue)` and `resource.count` at the `add_stats`
call. -/
structure VisitEnv where
  granted : Bool
  wait : ℚ
  service : ℚ
  qlen : ℕ
  occ : ℕ
deriving DecidableEq

/-- One iteration of the `for node in pathway` loop of `customer`
(src/main.py lines 82-97): the abandonment branch (lines 87-91) increments
the counter and records a `(wait, 0)` sample, then returns (second
component `false`); the service branch (lines 93-97) records the
`(wait, service_time)` sample and continues (second component `true`). -/
def visitStep (node : String) (e : VisitEnv) (sm : StatsMap) : StatsMap × Bool :=
  if e.granted then
    (updateStats sm node
      (fun st => st.add_stats e.wait e.service e.qlen e.occ (parameters node).servers), true)
  else
    (updateStats sm node
      (fun st => (st.customer_abandoned).add_stats e.wait 0 e.qlen e.occ (parameters node).servers),
     false)

/-- The `customer` process (src/main.py lines 81-97): visit the stations of
`pathway` in order, consuming one environment observation per visit, and
stop early when a visit ends in abandonment (`return` on line 91). -/
def customer : List String → List VisitEnv → StatsMap → StatsMap
  | [], _, sm => sm
  | _ :: _, [], sm => sm
  | node :: rest, e :: es, sm =>
    let r := visitStep node e sm
    if r.2 then customer rest es r.1 else r.1

/-- An arbitrary finite sequence of station visits applied to the statistics
maps.  Because each visit mutates the collectors atomically (the scheduler
resumes one continuation at a time), every interleaving of the concurrent
customer lifecycles acts on the statistics as some such visit sequence. -/
def runVisits : List (String × VisitEnv) → StatsMap → StatsMap
  | [], sm => sm
  | v :: rest, sm => runVisits rest (visitStep v.1 v.2 sm).1

/-- Derived observer: the number of completed-service samples in a
collector.  Every visit appends exactly one waiting-time sample and an
abandoned visit additionally increments `abandonment_count`, so the
completed visits are the samples not accounted for by abandonments. -/
def completed_count (st : NodeStats) : ℤ :=
  (st.waiting_times.length : ℤ) - (st.abandonment_count : ℤ)

/-- `weighted_random_choice` (src/main.py lines 100-102) calls
`np.random.choice(choices, p=probabilities)`, which selects one option with
probability proportional to its weight from a single uniform draw; this is
modelled by inverse-CDF selection: walk the list subtracting weights from
the uniform draw `u` until it falls inside an option's weight.  The empty
list (on which the library call raises) is given an arbitrary value; the
program never passes an empty list. -/
def weighted_random_choice (u : ℚ) : List (String × ℚ) → String
  | [] => "Completed Support"
  | [(c, _)] => c
  | (c, p) :: rest => if u < p then c else weighted_random_choice (u - p) rest

/-- The `while current_node != 'Completed Support'` loop of
`customer_pathway` (src/main.py lines 107-113): repeatedly draw the next
station (consuming one uniform draw per step, indexed by `i`), break when
the terminal state is drawn, otherwise append the station and continue.
`fuel` bounds the number of iterations so the embedding is total; a run
that terminates is reproduced exactly by any sufficiently large fuel. -/
def build_pathway (table : String → List (String × ℚ)) (draws : ℕ → ℚ) :
    ℕ → ℕ → String → List String → List String
  | 0, _, _, pathway => pathway
  | fuel + 1, i, current, pathway =>
    if current = "Completed Support" then pathway
    else
      let next := weighted_random_choice (draws i) (table current)
      if next = "Completed Support" then pathway
      else build_pathway table draws fuel (i + 1) next (pathway ++ [next])

/-- The classification at the end of `customer_pathway` (src/main.py lines
114-117): a pathway of exactly two entries counts as a first-call
resolution, any other length adds `len(pathway) - 2` to the transfer
counter. -/
def classify_pathway (pathway : List String) (g : GeneStats) : GeneStats :=
  if pathway.length = 2 then
    { g with first_call_resolution_count := g.first_call_resolution_count + 1 }
  else
    { g with transfer_count := g.transfer_count + ((pathway.length : ℤ) - 2) }

/-- `customer_pathway` (src/main.py lines 104-118): build the pathway
starting from `['CRS']` at station `'CRS'`, then classify it. -/
def customer_pathway (table : String → List (String × ℚ)) (draws : ℕ → ℚ)
    (fuel : ℕ) (g : GeneStats) : List String × GeneStats :=
  let pathway := build_pathway table draws fuel 0 "CRS" ["CRS"]
  (pathway, classify_pathway pathway g)

/-- Folding the per-customer classification over a list of constructed
pathways: the effect on `gene_stats` of constructing all those paths. -/
def classify_fold (ps : List (List String)) (g : GeneStats) : GeneStats :=
  ps.foldl (fun g p => classify_pathway p g) g

/-- The `for i in range(TOTAL_CUSTOMERS)` loop of `customer_arrivals`
(src/main.py lines 138-143): each iteration spawns one customer process
(recorded here as its id paired with the spawn time) and then advances the
clock by the drawn inter-arrival gap. -/
def arrivalsLoop (draws : ℕ → ℚ) : ℕ → ℕ → ℚ → List (String × ℚ)
  | 0, _, _ => []
  | k + 1, i, t => ("Customer_" ++ toString i, t) :: arrivalsLoop draws k (i + 1) (t + draws i)

/-- `customer_arrivals` (src/main.py lines 138-143), parametrized by the
realized inter-arrival draws. -/
def customer_arrivals (draws : ℕ → ℚ) : List (String × ℚ) :=
  arrivalsLoop draws TOTAL_CUSTOMERS 0 0

/-- Interface contract of the values a visit reads from the environment:
elapsed waits are non-negative (the clock is monotone), exponential service
draws are non-negative, and a simpy resource never holds more occupants
than its capacity. -/
abbrev EnvOk (node : String) (e : VisitEnv) : Prop :=
  0 ≤ e.wait ∧ 0 ≤ e.service ∧ e.occ ≤ (parameters node).servers

/-- Elementwise bounds on a collector's samples. -/
def ValidNode (st : NodeStats) : Prop :=
  (∀ w ∈ st.waiting_times, 0 ≤ w) ∧ (∀ s ∈ st.service_times, 0 ≤ s) ∧
    (∀ u ∈ st.utilization, 0 ≤ u ∧ u ≤ 1)

/-- Claim C8 (confirmed): calling `compute_metrics` on a station with no
samples and no abandonments returns 0 for every metric and does not fail. -/
theorem compute_metrics_empty :
    NodeStats.compute_metrics initNodeStats = ⟨0, 0, 0, 0, 0⟩ := by
  decide

/-- The arrivals loop emits exactly as many customers as its counter. -/
lemma arrivalsLoop_length (draws : ℕ → ℚ) (k : ℕ) :
    ∀ (i : ℕ) (t : ℚ), (arrivalsLoop draws k i t).length = k := by
  induction k with
  | zero => intro i t; rfl
  | succ k ih => intro i t; simp [arrivalsLoop, ih]

/-- Claim C9 (confirmed): the arrival generator creates exactly
`TOTAL_CUSTOMERS` customer lifecycle processes, whatever the realized
inter-arrival draws. -/
theorem customer_arrivals_length (draws : ℕ → ℚ) :
    (customer_arrivals draws).length = TOTAL_CUSTOMERS :=
  arrivalsLoop_length draws TOTAL_CUSTOMERS 0 0

/-- Claim C4 (confirmed): every station visit records exactly one of the two
outcomes in that station's statistics — either the abandonment counter goes
up by one and the completed-service count is unchanged, or the
completed-service count goes up by one and the abandonment counter is
unchanged — never both and never neither. -/
theorem visit_outcome_exclusive (node : String) (e : VisitEnv) (sm : StatsMap) :
    ((((visitStep node e sm).1 node).abandonment_count = (sm node).abandonment_count + 1 ∧
        completed_count ((visitStep node e sm).1 node) = completed_count (sm node)) ∧
      ¬ (completed_count ((visitStep node e sm).1 node) = completed_count (sm node) + 1 ∧
          ((visitStep node e sm).1 node).abandonment_count = (sm node).abandonment_count)) ∨
    ((completed_count ((visitStep node e sm).1 node) = completed_count (sm node) + 1 ∧
        ((visitStep node e sm).1 node).abandonment_count = (sm node).abandonment_count) ∧
      ¬ (((visitStep node e sm).1 node).abandonment_count = (sm node).abandonment_count + 1 ∧
          completed_count ((visitStep node e sm).1 node) = completed_count (sm node))) := by
  cases hg : e.granted
  · have hst : (visitStep node e sm).1 node =
        ((sm node).customer_abandoned).add_stats e.wait 0 e.qlen e.occ (parameters node).servers := by
      simp [visitStep, hg, updateStats]
    rw [hst]
    left
    simp [NodeStats.add_stats, NodeStats.customer_abandoned, completed_count]
  · have hst : (visitStep node e sm).1 node =
        (sm node).add_stats e.wait e.service e.qlen e.occ (parameters node).servers := by
      simp [visitStep, hg, updateStats]
    rw [hst]
    right
    simp [NodeStats.add_stats, completed_count]
    omega

/-- Claim C5 (confirmed): when the patience timer fires before capacity is
granted, the whole customer lifecycle collapses to a single update of the
current station's collector — the abandonment counter is incremented, one
`(elapsed wait, 0)` sample is appended — and the remaining stations of the
path and the remaining observations are never touched. -/
theorem abandonment_terminates_lifecycle (node : String) (rest : List String)
    (e : VisitEnv) (es : List VisitEnv) (sm : StatsMap) (h : e.granted = false) :
    customer (node :: rest) (e :: es) sm =
      updateStats sm node
        (fun st => (st.customer_abandoned).add_stats e.wait 0 e.qlen e.occ
          (parameters node).servers) := by
  simp [customer, visitStep, h]

/-- Witness for C5 at a concrete abandoned visit. -/
theorem abandonment_terminates_lifecycle_witness :
    customer ["CRS", "CSD"] [⟨false, 1/2, 0, 2, 3⟩, ⟨true, 0, 1, 0, 1⟩] node_stats =
      updateStats node_stats "CRS"
        (fun st => (st.customer_abandoned).add_stats ((⟨false, 1/2, 0, 2, 3⟩ : VisitEnv)).wait 0
          ((⟨false, 1/2, 0, 2, 3⟩ : VisitEnv)).qlen ((⟨false, 1/2, 0, 2, 3⟩ : VisitEnv)).occ
          (parameters "CRS").servers) :=
  abandonment_terminates_lifecycle "CRS" ["CSD"] ⟨false, 1/2, 0, 2, 3⟩
    [⟨true, 0, 1, 0, 1⟩] node_stats rfl

/-- Claim C10 (confirmed): every visit appends exactly one waiting-time
sample, and an abandoned visit appends the abandoning customer's elapsed
wait paired with a zero service time while incrementing the abandonment
counter — so the waiting-time list, over which `compute_metrics` averages,
counts abandoned visits as well as completed ones. -/
theorem abandonment_records_sample (node : String) (e : VisitEnv) (sm : StatsMap) :
    ((visitStep node e sm).1 node).waiting_times.length = (sm node).waiting_times.length + 1 ∧
      (e.granted = false →
        ((visitStep node e sm).1 node).waiting_times = (sm node).waiting_times ++ [e.wait] ∧
          ((visitStep node e sm).1 node).service_times = (sm node).service_times ++ [0] ∧
          ((visitStep node e sm).1 node).abandonment_count = (sm node).abandonment_count + 1) := by
  cases hg : e.granted
  · have hst : (visitStep node e sm).1 node =
        ((sm node).customer_abandoned).add_stats e.wait 0 e.qlen e.occ (parameters node).servers := by
      simp [visitStep, hg, updateStats]
    rw [hst]
    simp [NodeStats.add_stats, NodeStats.customer_abandoned]
  · have hst : (visitStep node e sm).1 node =
        (sm node).add_stats e.wait e.service e.qlen e.occ (parameters node).servers := by
      simp [visitStep, hg, updateStats]
    rw [hst]
    simp [NodeStats.add_stats, hg]

/-- Witness for C10 at a concrete abandoned visit. -/
theorem abandonment_records_sample_witness :
    ((visitStep "CRS" ⟨false, 3/4, 0, 1, 2⟩ node_stats).1 "CRS").waiting_times.length =
        (node_stats "CRS").waiting_times.length + 1 ∧
      ((visitStep "CRS" ⟨false, 3/4, 0, 1, 2⟩ node_stats).1 "CRS").waiting_times =
          (node_stats "CRS").waiting_times ++ [((⟨false, 3/4, 0, 1, 2⟩ : VisitEnv)).wait] ∧
        ((visitStep "CRS" ⟨false, 3/4, 0, 1, 2⟩ node_stats).1 "CRS").service_times =
          (node_stats "CRS").service_times ++ [0] ∧
        ((visitStep "CRS" ⟨false, 3/4, 0, 1, 2⟩ node_stats).1 "CRS").abandonment_count =
          (node_stats "CRS").abandonment_count + 1 :=
  ⟨(abandonment_records_sample "CRS" ⟨false, 3/4, 0, 1, 2⟩ node_stats).1,
    (abandonment_records_sample "CRS" ⟨false, 3/4, 0, 1, 2⟩ node_stats).2 rfl⟩

/-- Effect of folding the classification over a pathway list, for an
arbitrary starting value of the global counters. -/
lemma classify_fold_spec (ps : List (List String)) : ∀ g : GeneStats,
    (classify_fold ps g).first_call_resolution_count =
        g.first_call_resolution_count + (ps.filter (fun p => p.length == 2)).length ∧
      (classify_fold ps g).transfer_count =
        g.transfer_count + ((ps.filter (fun p => p.length != 2)).map
          (fun p => (p.length : ℤ) - 2)).sum := by
  induction ps with
  | nil => intro g; simp [classify_fold]
  | cons p ps ih =>
    intro g
    have hstep : classify_fold (p :: ps) g = classify_fold ps (classify_pathway p g) := rfl
    rcases ih (classify_pathway p g) with ⟨h1, h2⟩
    by_cases h : p.length = 2
    · constructor
      · rw [hstep, h1]
        simp [classify_pathway, h, List.filter_cons]
        omega
      · rw [hstep, h2]
        simp [classify_pathway, h, List.filter_cons]
    · constructor
      · rw [hstep, h1]
        simp [classify_pathway, h, List.filter_cons]
      · rw [hstep, h2]
        simp [classify_pathway, h, List.filter_cons]
        ring

/-- Splitting a pathway list by the two-station test. -/
lemma filter_two_split (ps : List (List String)) :
    (ps.filter (fun p => p.length == 2)).length +
        (ps.filter (fun p => p.length != 2)).length = ps.length := by
  induction ps with
  | nil => rfl
  | cons p ps ih =>
    by_cases h : p.length = 2 <;> simp [List.filter_cons, h] <;> omega

/-- One unfolding of the path-construction loop. -/
lemma build_pathway_succ (table : String → List (String × ℚ)) (draws : ℕ → ℚ)
    (fuel i : ℕ) (current : String) (pathway : List String) :
    build_pathway table draws (fuel + 1) i current pathway =
      if current = "Completed Support" then pathway
      else
        if weighted_random_choice (draws i) (table current) = "Completed Support" then pathway
        else
          build_pathway table draws fuel (i + 1)
            (weighted_random_choice (draws i) (table current))
            (pathway ++ [weighted_random_choice (draws i) (table current)]) := rfl

/-- One unfolding of the inverse-CDF walk on a list of two or more options. -/
lemma wrc_cons (u p : ℚ) (c : String) (d : String × ℚ) (rest : List (String × ℚ)) :
    weighted_random_choice u ((c, p) :: d :: rest) =
      if u < p then c else weighted_random_choice (u - p) (d :: rest) := rfl

/-- The inverse-CDF walk on a single option returns it. -/
lemma wrc_single (u p : ℚ) (c : String) : weighted_random_choice u [(c, p)] = c := rfl

/-- A concrete realization of the uniform draws: 3/5 for the first routing
step, 1/2 afterwards. -/
def cdraws : ℕ → ℚ
  | 0 => 3/5
  | _ => 1/2

/-- Counterexample to claim C1 as stated: the pathway constructed from the
reference transition table by the uniform draws 3/5, 1/2 is exactly
["CRS", "CSD"] — two stations, so not a one-station path.  The claim then
predicts no first-call resolution and transfer_count increased by
(2 − 1) = 1, but the code counts it as a first-call resolution and leaves
transfer_count at 0. -/
theorem classification_two_station_counterexample :
    build_pathway transition_probabilities cdraws 5 0 "CRS" ["CRS"] = ["CRS", "CSD"] ∧
      classify_pathway ["CRS", "CSD"] ⟨0, 0⟩ = ⟨1, 0⟩ ∧
      classify_pathway ["CRS", "CSD"] ⟨0, 0⟩ ≠ ⟨0, 2 - 1⟩ := by
  refine ⟨?_, by decide, by decide⟩
  have w0 : weighted_random_choice (cdraws 0) (transition_probabilities "CRS") = "CSD" := by
    show weighted_random_choice (3/5)
        [("TSD", 1/10), ("AI/Robotics", 3/10), ("PGT", 1/10), ("CSD", 1/2)] = "CSD"
    rw [wrc_cons, if_neg (by norm_num), wrc_cons, if_neg (by norm_num),
      wrc_cons, if_neg (by norm_num), wrc_single]
  have w1 : weighted_random_choice (cdraws 1) (transition_probabilities "CSD") =
      "Completed Support" := by
    show weighted_random_choice (1/2)
        [("PGT", 1/10), ("TSD", 1/10), ("Completed Support", 4/5)] = "Completed Support"
    rw [wrc_cons, if_neg (by norm_num), wrc_cons, if_neg (by norm_num), wrc_single]
  rw [build_pathway_succ transition_probabilities cdraws 4 0 "CRS" ["CRS"]]
  rw [if_neg (by decide), w0, if_neg (by decide)]
  rw [build_pathway_succ transition_probabilities cdraws 3 1 "CSD" (["CRS"] ++ ["CSD"])]
  rw [if_neg (by decide), w1, if_pos rfl]
  rfl

/-- Claim C1 (corrected): the code counts a first-call resolution when the
constructed pathway has exactly two entries (the fixed entry station plus
one drawn successor) and otherwise adds (pathway length − 2) to
transfer_count.  Hence after all paths are constructed
first_call_resolution_count is the number of two-entry pathways,
transfer_count is the sum of (length − 2) over the other pathways, and
first_call_resolution_count plus the number of those other pathways
accounts for all constructed paths. -/
theorem classification_fold_correct (ps : List (List String)) :
    (classify_fold ps ⟨0, 0⟩).first_call_resolution_count =
        (ps.filter (fun p => p.length == 2)).length ∧
      (classify_fold ps ⟨0, 0⟩).transfer_count =
        ((ps.filter (fun p => p.length != 2)).map (fun p => (p.length : ℤ) - 2)).sum ∧
      (classify_fold ps ⟨0, 0⟩).first_call_resolution_count +
          (ps.filter (fun p => p.length != 2)).length = ps.length := by
  rcases classify_fold_spec ps ⟨0, 0⟩ with ⟨h1, h2⟩
  refine ⟨by simpa using h1, by simpa using h2, ?_⟩
  rw [h1]
  simpa using filter_two_split ps

/-- A transition table in which the entry station routes to the terminal
outcome with probability 1.0 (the scenario of claim C3). -/
def direct_terminal_table : String → List (String × ℚ) :=
  fun s => if s = "CRS" then [("Completed Support", 1)] else []

/-- Classifying n copies of the one-station pathway ["CRS"]: each customer
leaves the first-call-resolution counter alone and decrements
transfer_count by one. -/
lemma classify_single_iter (n : ℕ) : ∀ g : GeneStats,
    classify_fold (List.replicate n ["CRS"]) g =
      ⟨g.first_call_resolution_count, g.transfer_count - n⟩ := by
  induction n with
  | zero => intro g; cases g; simp [classify_fold]
  | succ n ih =>
    intro g
    rw [List.replicate_succ]
    have hstep : classify_fold (["CRS"] :: List.replicate n ["CRS"]) g =
        classify_fold (List.replicate n ["CRS"]) (classify_pathway ["CRS"] g) := rfl
    rw [hstep, ih]
    simp [classify_pathway, GeneStats.mk.injEq]
    ring

/-- Claim C3 (code_bug): with a transition table routing the entry station
to the terminal outcome with probability 1.0, every constructed pathway is
exactly ["CRS"] — one station, as the claim says — but the classification
then takes the else-branch and adds (1 − 2) = −1 to transfer_count, so
after n customers first_call_resolution_count is 0 (not n) and
transfer_count is −n (not 0). -/
theorem direct_terminal_classification_eval (draws : ℕ → ℚ) (fuel n : ℕ) :
    build_pathway direct_terminal_table draws (fuel + 1) 0 "CRS" ["CRS"] = ["CRS"] ∧
      (["CRS"] : List String).length = 1 ∧
      classify_fold (List.replicate n ["CRS"]) ⟨0, 0⟩ = ⟨0, -(n : ℤ)⟩ := by
  refine ⟨?_, rfl, ?_⟩
  · rfl
  · rw [classify_single_iter n ⟨0, 0⟩]
    simp

/-- Any single visit keeps the abandonment counter bounded by the number of
waiting-time samples, at every station. -/
lemma visitStep_count_le (node m : String) (e : VisitEnv) (sm : StatsMap)
    (h : (sm m).abandonment_count ≤ (sm m).waiting_times.length) :
    ((visitStep node e sm).1 m).abandonment_count ≤
      ((visitStep node e sm).1 m).waiting_times.length := by
  by_cases hm : m = node
  · subst hm
    cases hg : e.granted
    · have hst : (visitStep m e sm).1 m =
          ((sm m).customer_abandoned).add_stats e.wait 0 e.qlen e.occ (parameters m).servers := by
        simp [visitStep, hg, updateStats]
      rw [hst]
      simp [NodeStats.add_stats, NodeStats.customer_abandoned]
      omega
    · have hst : (visitStep m e sm).1 m =
          (sm m).add_stats e.wait e.service e.qlen e.occ (parameters m).servers := by
        simp [visitStep, hg, updateStats]
      rw [hst]
      simp [NodeStats.add_stats]
      omega
  · have hst : (visitStep node e sm).1 m = sm m := by
      cases hg : e.granted <;> simp [visitStep, hg, updateStats, hm]
    rw [hst]
    exact h

/-- The abandonment counter never exceeds the waiting-time sample count over
any sequence of visits. -/
lemma runVisits_count_le (visits : List (String × VisitEnv)) : ∀ sm : StatsMap,
    (∀ m, (sm m).abandonment_count ≤ (sm m).waiting_times.length) →
    ∀ m, ((runVisits visits sm) m).abandonment_count ≤
      ((runVisits visits sm) m).waiting_times.length := by
  induction visits with
  | nil => intro sm h m; exact h m
  | cons v vs ih =>
    intro sm h m
    exact ih _ (fun m2 => visitStep_count_le v.1 m2 v.2 sm (h m2)) m

/-- The two-visit run behind the C2 counterexample: one completed service,
then one abandonment, both at station CRS. -/
def c2visits : List (String × VisitEnv) :=
  [("CRS", ⟨true, 0, 1, 0, 1⟩), ("CRS", ⟨false, 1, 0, 0, 1⟩)]

/-- Counterexample to claim C2 as stated: after one completed service and
one abandonment at CRS the code reports abandonment_rate 1/3 — the
abandonment also appended a waiting-time sample, so it is double-counted in
the denominator — while abandoned / (abandoned + completed) would be 1/2. -/
theorem abandonment_rate_counterexample :
    completed_count (runVisits c2visits node_stats "CRS") = 1 ∧
      (runVisits c2visits node_stats "CRS").abandonment_count = 1 ∧
      (NodeStats.compute_metrics (runVisits c2visits node_stats "CRS")).abandonment_rate = 1/3 ∧
      ((1 : ℚ) / (1 + 1) = 1/2) ∧ ((1 : ℚ)/3 ≠ 1/2) := by
  refine ⟨?_, ?_, ?_, by norm_num, by norm_num⟩ <;>
    simp [c2visits, runVisits, visitStep, updateStats, node_stats, initNodeStats,
      NodeStats.add_stats, NodeStats.customer_abandoned, NodeStats.compute_metrics,
      completed_count]

/-- Claim C2 (corrected, amended form): after any sequence of visits the
completed-service count is non-negative, and whenever the station recorded
anything the reported abandonment_rate equals
abandoned / (completed + 2 · abandoned) — each abandonment also appended a
waiting-time sample, so it appears twice in the denominator the code
builds. -/
theorem abandonment_rate_formula (visits : List (String × VisitEnv)) (node : String) :
    0 ≤ completed_count (runVisits visits node_stats node) ∧
      ((runVisits visits node_stats node).waiting_times.length +
          (runVisits visits node_stats node).abandonment_count ≠ 0 →
        (NodeStats.compute_metrics (runVisits visits node_stats node)).abandonment_rate =
          ((runVisits visits node_stats node).abandonment_count : ℚ) /
            ((completed_count (runVisits visits node_stats node) : ℚ) +
              2 * ((runVisits visits node_stats node).abandonment_count : ℚ))) := by
  have hle := runVisits_count_le visits node_stats (fun m => le_rfl) node
  constructor
  · simp only [completed_count]
    omega
  · intro h
    simp only [NodeStats.compute_metrics]
    rw [if_neg h]
    congr 1
    simp only [completed_count]
    push_cast
    ring

/-- Witness for the amended C2 at a concrete run with one abandonment. -/
theorem abandonment_rate_formula_witness :
    0 ≤ completed_count (runVisits c2visits node_stats "CRS") ∧
      (runVisits c2visits node_stats "CRS").waiting_times.length +
          (runVisits c2visits node_stats "CRS").abandonment_count ≠ 0 ∧
      (NodeStats.compute_metrics (runVisits c2visits node_stats "CRS")).abandonment_rate =
        ((runVisits c2visits node_stats "CRS").abandonment_count : ℚ) /
          ((completed_count (runVisits c2visits node_stats "CRS") : ℚ) +
            2 * ((runVisits c2visits node_stats "CRS").abandonment_count : ℚ)) :=
  ⟨(abandonment_rate_formula c2visits "CRS").1, by decide,
    (abandonment_rate_formula c2visits "CRS").2 (by decide)⟩

/-- The guarded mean of a list of non-negative rationals is non-negative. -/
lemma list_mean_nonneg (xs : List ℚ) (h : ∀ x ∈ xs, 0 ≤ x) :
    0 ≤ (if xs = [] then (0 : ℚ) else xs.sum / (xs.length : ℚ)) := by
  split
  · exact le_rfl
  · exact div_nonneg (List.sum_nonneg h) (by positivity)

/-- The guarded mean of a list of rationals bounded by one is at most one. -/
lemma list_mean_le_one (xs : List ℚ) (h : ∀ x ∈ xs, x ≤ 1) :
    (if xs = [] then (0 : ℚ) else xs.sum / (xs.length : ℚ)) ≤ 1 := by
  split
  · norm_num
  · rename_i hne
    have hlen : 0 < (xs.length : ℚ) := by
      exact_mod_cast List.length_pos.mpr hne
    rw [div_le_one hlen]
    have hsum := List.sum_le_card_nsmul xs 1 h
    simpa using hsum

/-- A utilization snapshot occ / servers lies in [0, 1] whenever the
occupant count is bounded by the capacity. -/
lemma util_sample_bounds (occ servers : ℕ) (h : occ ≤ servers) :
    0 ≤ (occ : ℚ) / (servers : ℚ) ∧ (occ : ℚ) / (servers : ℚ) ≤ 1 := by
  refine ⟨by positivity, ?_⟩
  rcases Nat.eq_zero_or_pos servers with hs | hs
  · subst hs
    have hocc : occ = 0 := Nat.le_zero.mp h
    simp [hocc]
  · rw [div_le_one (by exact_mod_cast hs)]
    exact_mod_cast h

/-- Appending one sample set preserves the elementwise sample bounds. -/
lemma add_stats_valid (st : NodeStats) (wait service : ℚ) (qlen occ servers : ℕ)
    (h : ValidNode st) (hw : 0 ≤ wait) (hs : 0 ≤ service) (ho : occ ≤ servers) :
    ValidNode (st.add_stats wait service qlen occ servers) := by
  obtain ⟨h1, h2, h3⟩ := h
  refine ⟨fun x hx => ?_, fun x hx => ?_, fun x hx => ?_⟩
  · simp only [NodeStats.add_stats] at hx
    rcases List.mem_append.mp hx with hin | hin
    · exact h1 x hin
    · rw [List.mem_singleton.mp hin]; exact hw
  · simp only [NodeStats.add_stats] at hx
    rcases List.mem_append.mp hx with hin | hin
    · exact h2 x hin
    · rw [List.mem_singleton.mp hin]; exact hs
  · simp only [NodeStats.add_stats] at hx
    rcases List.mem_append.mp hx with hin | hin
    · exact h3 x hin
    · rw [List.mem_singleton.mp hin]; exact util_sample_bounds occ servers ho

/-- The abandonment counter does not touch the sample lists. -/
lemma abandoned_valid (st : NodeStats) (h : ValidNode st) :
    ValidNode st.customer_abandoned := by
  simpa [ValidNode, NodeStats.customer_abandoned] using h

/-- A single visit with contract-satisfying observations preserves the
sample bounds at every station. -/
lemma visitStep_valid (node m : String) (e : VisitEnv) (sm : StatsMap)
    (he : EnvOk node e) (h : ValidNode (sm m)) : ValidNode ((visitStep node e sm).1 m) := by
  obtain ⟨hw, hs, ho⟩ := he
  by_cases hm : m = node
  · subst hm
    cases hg : e.granted
    · have hst : (visitStep m e sm).1 m =
          ((sm m).customer_abandoned).add_stats e.wait 0 e.qlen e.occ (parameters m).servers := by
        simp [visitStep, hg, updateStats]
      rw [hst]
      exact add_stats_valid _ _ _ _ _ _ (abandoned_valid _ h) hw le_rfl ho
    · have hst : (visitStep m e sm).1 m =
          (sm m).add_stats e.wait e.service e.qlen e.occ (parameters m).servers := by
        simp [visitStep, hg, updateStats]
      rw [hst]
      exact add_stats_valid _ _ _ _ _ _ h hw hs ho
  · have hst : (visitStep node e sm).1 m = sm m := by
      cases hg : e.granted <;> simp [visitStep, hg, updateStats, hm]
    rw [hst]
    exact h

/-- Any sequence of contract-satisfying visits preserves the sample bounds
at every station. -/
lemma runVisits_valid (visits : List (String × VisitEnv)) : ∀ sm : StatsMap,
    (∀ v ∈ visits, EnvOk v.1 v.2) → (∀ m, ValidNode (sm m)) →
    ∀ m, ValidNode ((runVisits visits sm) m) := by
  induction visits with
  | nil => intro sm _ h m; exact h m
  | cons v vs ih =>
    intro sm hok h m
    exact ih _ (fun w hw => hok w (List.mem_cons_of_mem v hw))
      (fun m2 => visitStep_valid v.1 m2 v.2 sm (hok v (List.mem_cons_self v vs)) (h m2)) m

/-- The freshly initialized collector satisfies the sample bounds. -/
lemma initNodeStats_valid : ValidNode initNodeStats := by
  refine ⟨?_, ?_, ?_⟩ <;> intro x hx <;> simp [initNodeStats] at hx

/-- Claim C7 (confirmed): after any run whose observations satisfy the
environment interface contracts (non-negative elapsed waits, non-negative
service draws, occupancy bounded by capacity), every station's metrics
satisfy abandonment_rate ∈ [0,1], average_utilization ∈ [0,1], and
non-negative average waiting time, service time and queue length. -/
theorem metric_bounds (visits : List (String × VisitEnv))
    (hok : ∀ v ∈ visits, EnvOk v.1 v.2) (node : String) :
    0 ≤ (NodeStats.compute_metrics (runVisits visits node_stats node)).abandonment_rate ∧
      (NodeStats.compute_metrics (runVisits visits node_stats node)).abandonment_rate ≤ 1 ∧
      0 ≤ (NodeStats.compute_metrics (runVisits visits node_stats node)).average_utilization ∧
      (NodeStats.compute_metrics (runVisits visits node_stats node)).average_utilization ≤ 1 ∧
      0 ≤ (NodeStats.compute_metrics (runVisits visits node_stats node)).average_waiting_time ∧
      0 ≤ (NodeStats.compute_metrics (runVisits visits node_stats node)).average_service_time ∧
      0 ≤ (NodeStats.compute_metrics (runVisits visits node_stats node)).average_queue_length := by
  obtain ⟨h1, h2, h3⟩ :=
    runVisits_valid visits node_stats hok (fun m => initNodeStats_valid) node
  simp only [NodeStats.compute_metrics]
  refine ⟨?_, ?_, ?_, ?_, ?_, ?_, ?_⟩
  · split
    · exact le_rfl
    · positivity
  · split
    · norm_num
    · rename_i h
      rw [div_le_one (by exact_mod_cast Nat.pos_of_ne_zero h)]
      exact_mod_cast Nat.le_add_left _ _
  · exact list_mean_nonneg _ (fun u hu => (h3 u hu).1)
  · exact list_mean_le_one _ (fun u hu => (h3 u hu).2)
  · exact list_mean_nonneg _ h1
  · exact list_mean_nonneg _ h2
  · split
    · exact le_rfl
    · positivity

/-- The one-visit run behind the C7 witness: a completed service at CRS with
in-contract observations. -/
def c7visits : List (String × VisitEnv) := [("CRS", ⟨true, 1, 2, 1, 2⟩)]

/-- Witness for C7 at a concrete one-visit run. -/
theorem metric_bounds_witness :
    0 ≤ (NodeStats.compute_metrics (runVisits c7visits node_stats "CRS")).abandonment_rate ∧
      (NodeStats.compute_metrics (runVisits c7visits node_stats "CRS")).abandonment_rate ≤ 1 ∧
      0 ≤ (NodeStats.compute_metrics (runVisits c7visits node_stats "CRS")).average_utilization ∧
      (NodeStats.compute_metrics (runVisits c7visits node_stats "CRS")).average_utilization ≤ 1 ∧
      0 ≤ (NodeStats.compute_metrics (runVisits c7visits node_stats "CRS")).average_waiting_time ∧
      0 ≤ (NodeStats.compute_metrics (runVisits c7visits node_stats "CRS")).average_service_time ∧
      0 ≤ (NodeStats.compute_metrics (runVisits c7visits node_stats "CRS")).average_queue_length :=
  metric_bounds c7visits
    (by
      intro v hv
      simp only [c7visits, List.mem_singleton] at hv
      subst hv
      refine ⟨by norm_num, by norm_num, by norm_num [parameters]⟩)
    "CRS"
